import Mathlib

/-!
# Verification of `ramrod::network_communication` (deempalme/network_communication)

Shallow embedding of the connection-lifecycle and partial-transfer engine of the
`server` and `client` classes.  The repository snapshot contains several
revisions of `server.cpp` / `client.cpp`; each embedded definition names the
revision it is taken from:

* `part_000`  — the POSIX `server.cpp` (fields `socket_fd_`, `connected_fd_`,
  UDP path marks the session connected right after `bind`).
* `server.cpp` (second document, Winsock) — the revision whose UDP path performs
  the 11-byte `"identifier"` handshake (`concurrent_connector`, lines 691-721)
  and whose `receive_all` is lines 397-439.
* `part_002`  — the POSIX `client.cpp` with `std::atomic` flags and
  breaker-taking `_all` transfers.
* `part_003` (first document) — an older `client.cpp` whose concurrent variants
  report failure through `*size = -1`.

Network I/O is modelled by traces: each iteration of a transfer loop consumes
one `datagram` (the value the underlying `recv`/`recvfrom`/`send`/`sendto`
call would return, together with the sender address that `recvfrom` writes
into `client_->ai_addr`).  A transfer loop returns `none` when the trace is
exhausted while the loop would still block, and `some` of a result record
otherwise.  Caller-supplied breaker flags and the session's termination flags
are modelled as functions of the loop-iteration index: the value the shared
boolean holds when the loop head reads it.
-/

/-- Constant `SOCK_DGRAM` from `<sys/socket.h>` (Linux value). -/
def SOCK_DGRAM : Int := 2

/-- One underlying receive/send event: `result` is the value the socket call
returns (`> 0` bytes transferred, `0` orderly shutdown / empty datagram,
`< 0` error) and `sender` is the peer address the kernel reports for a
datagram (`recvfrom`'s `src_addr` output). Addresses are abstracted to `Nat`. -/
structure datagram where
  sender : Nat
  result : Int
deriving DecidableEq, Repr

/-- Allocation state of the `results_` member (`struct addrinfo *`) of the
`part_000` server: null pointer, pointing at a live allocation, or pointing at
memory already released by `freeaddrinfo` (dangling). -/
inductive ptr_state where
  | null : ptr_state
  | alive : ptr_state
  | dangling : ptr_state
deriving DecidableEq, Repr

/-- State of the `part_000` POSIX `server` object: the data members read or
written by the operations embedded below.  `socket_closed` / `child_closed`
stand for `socket_fd_ < 0` / `connected_fd_ < 0`; `peer` is the address stored
in `client_->ai_addr` (the recorded peer of a datagram session). -/
structure server_state where
  ip_ : String
  port_ : Int
  connected : Bool
  connecting : Bool
  is_tcp : Bool
  terminate_send : Bool
  terminate_receive : Bool
  terminate_concurrent : Bool
  current_intent : Nat
  max_intents : Nat
  results : ptr_state
  socket_closed : Bool
  child_closed : Bool
  peer : Nat
deriving DecidableEq, Repr

/-- Result of one bulk-transfer call on the server: `value` is the returned
byte count / sentinel, `peer` and `connected` the session fields afterwards,
`sleeps` how many 5 ms retry delays were performed. -/
structure transfer_result where
  value : Int
  peer : Nat
  connected : Bool
  sleeps : Nat
deriving DecidableEq, Repr

/-- Result of one bulk-transfer call on the client (no recorded peer). -/
structure client_transfer_result where
  value : Int
  connected : Bool
  sleeps : Nat
deriving DecidableEq, Repr

/-- Null-breaker substitution `bool never{false}; if(breaker == nullptr)
breaker = &never;` — the breaker argument of every `_all` transfer.  A breaker is the time-indexed
value of the caller's flag (`Nat → Bool`); a null pointer is replaced by the
local always-false flag before the loop starts. -/
def resolve_breaker : Option (Nat → Bool) → (Nat → Bool)
  | none => fun _ => false
  | some f => f

/-- Loop of `server::receive_all` (`part_000` lines 131-159; identical control
flow to `server.cpp` lines 411-437).  Per iteration: check
`total_received < size && !(*breaker)`; then one `recv` (TCP) or `recvfrom`
(UDP) consumes the next trace event — for UDP, `recvfrom`'s address output
overwrites `client_->ai_addr` with the datagram's sender whenever a datagram
arrived (`result ≥ 0`).  `result == 0` calls `disconnect()` and returns 0;
`result < 0` bumps the error counter, returns −1 once it exceeds
`max_intents_`, else sleeps 5 ms and retries the same remaining range.
`bytes_left` (`= size − total_received`) only sets the length handed to the
socket call, so it is not tracked separately here. -/
def server_receive_all_loop (is_tcp : Bool) (max_intents : Nat) (size : Int)
    (brk : Nat → Bool) :
    Nat → Int → Nat → Nat → Nat → List datagram → Option transfer_result
  | i, total, _, peer, sleeps, [] =>
    if total < size ∧ brk i = false then none else some ⟨total, peer, true, sleeps⟩
  | i, total, err, peer, sleeps, d :: rest =>
    if total < size ∧ brk i = false then
      let peer' := if is_tcp then peer else if 0 ≤ d.result then d.sender else peer
      if d.result = 0 then
        some ⟨0, peer', false, sleeps⟩
      else if d.result < 0 then
        if err + 1 > max_intents then some ⟨-1, peer', true, sleeps⟩
        else server_receive_all_loop is_tcp max_intents size brk (i + 1) total (err + 1)
          peer' (sleeps + 1) rest
      else
        server_receive_all_loop is_tcp max_intents size brk (i + 1) (total + d.result) err
          peer' sleeps rest
    else some ⟨total, peer, true, sleeps⟩

/-- Function `server::receive_all` (`part_000` lines 119-161 / `server.cpp` lines
397-439): guard `!connected_ || size == 0` returns 0 at once, otherwise runs
the transfer loop with the resolved breaker. -/
def server_receive_all (s : server_state) (size : Int)
    (breaker : Option (Nat → Bool)) (trace : List datagram) :
    Option transfer_result :=
  if s.connected = false ∨ size = 0 then some ⟨0, s.peer, s.connected, 0⟩
  else server_receive_all_loop s.is_tcp s.max_intents size (resolve_breaker breaker)
    0 0 0 s.peer 0 trace

/-- Loop of `server::send_all` (`part_000` lines 225-254): same retry engine
over `send`/`sendto`; `sendto` only reads the stored peer address, so `peer`
is never changed. -/
def server_send_all_loop (max_intents : Nat) (size : Int) (brk : Nat → Bool) :
    Nat → Int → Nat → Nat → Nat → List datagram → Option transfer_result
  | i, total, _, peer, sleeps, [] =>
    if total < size ∧ brk i = false then none else some ⟨total, peer, true, sleeps⟩
  | i, total, err, peer, sleeps, d :: rest =>
    if total < size ∧ brk i = false then
      if d.result = 0 then
        some ⟨0, peer, false, sleeps⟩
      else if d.result < 0 then
        if err + 1 > max_intents then some ⟨-1, peer, true, sleeps⟩
        else server_send_all_loop max_intents size brk (i + 1) total (err + 1)
          peer (sleeps + 1) rest
      else
        server_send_all_loop max_intents size brk (i + 1) (total + d.result) err
          peer sleeps rest
    else some ⟨total, peer, true, sleeps⟩

/-- Function `server::send_all` (`part_000` lines 213-256). -/
def server_send_all (s : server_state) (size : Int)
    (breaker : Option (Nat → Bool)) (trace : List datagram) :
    Option transfer_result :=
  if s.connected = false ∨ size = 0 then some ⟨0, s.peer, s.connected, 0⟩
  else server_send_all_loop s.max_intents size (resolve_breaker breaker)
    0 0 0 s.peer 0 trace

/-- State of the `part_002` POSIX `client` object (atomic flags, single
`socket_fd_`). -/
structure client_state where
  ip_ : String
  port_ : Int
  connected : Bool
  connecting : Bool
  is_tcp : Bool
  terminate_send : Bool
  terminate_receive : Bool
  terminate_concurrent : Bool
  current_intent : Nat
  max_intents : Nat
  socket_closed : Bool
deriving DecidableEq, Repr

/-- Loop of `client::receive_all` (`part_002` lines 124-144).  On
`recv == 0` the call returns 0 **without** touching `connected_` (the comment
"therefore disconnecting client" notwithstanding, no `disconnect()` call
appears), so the connected flag stays as it was. -/
def client_receive_all_loop (max_intents : Nat) (size : Int) (brk : Nat → Bool) :
    Nat → Int → Nat → Nat → List Int → Option client_transfer_result
  | i, total, _, sleeps, [] =>
    if total < size ∧ brk i = false then none else some ⟨total, true, sleeps⟩
  | i, total, err, sleeps, r :: rest =>
    if total < size ∧ brk i = false then
      if r ≤ 0 then
        if r = 0 then some ⟨0, true, sleeps⟩
        else if err + 1 > max_intents then some ⟨-1, true, sleeps⟩
        else client_receive_all_loop max_intents size brk (i + 1) total (err + 1)
          (sleeps + 1) rest
      else
        client_receive_all_loop max_intents size brk (i + 1) (total + r) err sleeps rest
    else some ⟨total, true, sleeps⟩

/-- Function `client::receive_all` (`part_002` lines 112-146). -/
def client_receive_all (s : client_state) (size : Int)
    (breaker : Option (Nat → Bool)) (trace : List Int) :
    Option client_transfer_result :=
  if s.connected = false ∨ size = 0 then some ⟨0, s.connected, 0⟩
  else client_receive_all_loop s.max_intents size (resolve_breaker breaker) 0 0 0 0 trace

/-- Loop of `server::concurrent_receive_all` (`part_000` lines 471-513).  The
loop head reads `total_received < *size && !terminate_send_ && !(*breaker)` —
note it polls `terminate_send_`, and never reads `terminate_receive_`.  Both
termination flags are passed as the values they hold at each iteration; the
receive flag is accepted (it is part of the session state) but unused, exactly
as in the source.  Disconnect / error paths store 0 / −1 into `*size`; the
stored value is returned in `transfer_result.value`. -/
def server_concurrent_receive_all_loop (is_tcp : Bool) (max_intents : Nat)
    (size : Int) (terminate_send terminate_receive brk : Nat → Bool) :
    Nat → Int → Nat → Nat → Nat → List datagram → Option transfer_result
  | i, total, _, peer, sleeps, [] =>
    if total < size ∧ terminate_send i = false ∧ brk i = false then none
    else some ⟨total, peer, true, sleeps⟩
  | i, total, err, peer, sleeps, d :: rest =>
    if total < size ∧ terminate_send i = false ∧ brk i = false then
      let peer' := if is_tcp then peer else if 0 ≤ d.result then d.sender else peer
      if d.result = 0 then
        some ⟨0, peer', false, sleeps⟩
      else if d.result < 0 then
        if err + 1 > max_intents then some ⟨-1, peer', true, sleeps⟩
        else server_concurrent_receive_all_loop is_tcp max_intents size
          terminate_send terminate_receive brk (i + 1) total (err + 1) peer'
          (sleeps + 1) rest
      else
        server_concurrent_receive_all_loop is_tcp max_intents size
          terminate_send terminate_receive brk (i + 1) (total + d.result) err
          peer' sleeps rest
    else some ⟨total, peer, true, sleeps⟩

/-- Loop of `client::concurrent_receive_all` (`part_002` lines 391-425): the
loop head polls `terminate_receive_` (its own direction) and the breaker;
`recv == 0` stores 0 into `*size` and returns (no `disconnect()`), an error
past `max_intents_` stores −1. -/
def client_concurrent_receive_all_loop (max_intents : Nat) (size : Int)
    (terminate_receive brk : Nat → Bool) :
    Nat → Int → Nat → Nat → List Int → Option client_transfer_result
  | i, total, _, sleeps, [] =>
    if total < size ∧ terminate_receive i = false ∧ brk i = false then none
    else some ⟨total, true, sleeps⟩
  | i, total, err, sleeps, r :: rest =>
    if total < size ∧ terminate_receive i = false ∧ brk i = false then
      if r ≤ 0 then
        if r = 0 then some ⟨0, true, sleeps⟩
        else if err + 1 > max_intents then some ⟨-1, true, sleeps⟩
        else client_concurrent_receive_all_loop max_intents size terminate_receive brk
          (i + 1) total (err + 1) (sleeps + 1) rest
      else
        client_concurrent_receive_all_loop max_intents size terminate_receive brk
          (i + 1) (total + r) err sleeps rest
    else some ⟨total, true, sleeps⟩

/-- C-string equality as computed by `strcmp(a, b) == 0`: walk both byte
sequences; a position where the bytes differ decides inequality, a position
where both bytes are `0` (NUL) decides equality.  Running past the end of
either sequence without reaching a NUL is out-of-bounds in C; against the
NUL-terminated literal used below that never decides a match, so it is
modelled as inequality. -/
def cstr_eq : List Nat → List Nat → Bool
  | a :: as, b :: bs => if a = b then (if a = 0 then true else cstr_eq as bs) else false
  | _, _ => false

/-- The 11 bytes of the C literal `"identifier"` (10 characters plus the
terminating NUL), as sent by the client and expected by the server's datagram
handshake. -/
def identifier_bytes : List Nat :=
  [105, 100, 101, 110, 116, 105, 102, 105, 101, 114, 0]

/-- One datagram as seen by the server's handshake `recvfrom`: the sender
address and the 11 bytes left in `char incoming[11]` after the call (on a
failed receive the buffer simply keeps whatever bytes it held, which the code
goes on to compare anyway). -/
structure handshake_datagram where
  sender : Nat
  payload : List Nat
deriving DecidableEq, Repr

/-- UDP branch of `server::concurrent_connector` in the handshake-performing
revision (`server.cpp`, second document, lines 691-721), entered after `bind`
succeeded on the datagram socket: one blocking `recvfrom` of the 11-byte
identifier; then `terminate_receive_`/`terminate_send_`/`connecting_` are
cleared unconditionally; if `strcmp(incoming, "identifier") != 0` the function
returns with `connected_` untouched, otherwise the sender address is copied
into `client_->ai_addr`, `connected_fd_ = socket_fd_`, and `connected_ = true`. -/
def server_udp_handshake (s : server_state) (d : handshake_datagram) : server_state :=
  let s1 := { s with terminate_receive := false, terminate_send := false,
                     connecting := false }
  if cstr_eq d.payload identifier_bytes then
    { s1 with peer := d.sender, child_closed := s1.socket_closed, connected := true }
  else s1

/-- UDP branch of `server::concurrent_connector` in the `part_000` revision
(lines 419-426), entered after `bind` succeeded on the datagram socket: the
session is marked connected immediately — no identifier datagram is received
(the function takes no datagram at all). -/
def server_udp_finalize (s : server_state) : server_state :=
  { s with connected := true, connecting := false,
           terminate_receive := false, terminate_send := false }

/-- Outcome of one resolved address candidate inside the connector loop:
whether `socket()`, `setsockopt()` and the role action (`bind`/`connect`)
would succeed on it. -/
structure candidate where
  socket_ok : Bool
  sockopt_ok : Bool
  action_ok : Bool
deriving DecidableEq, Repr

/-- Result of a connector's candidate loop: the index of the winning
candidate, abort of the whole attempt from inside the loop, or exhaustion of
the list (`client_ == nullptr` / `pointer == nullptr`). -/
inductive connector_result where
  | bound : Nat → connector_result
  | aborted : connector_result
  | exhausted : connector_result
deriving DecidableEq, Repr

/-- Candidate loop of `server::concurrent_connector` (`part_000` lines
354-376; same control flow in `server.cpp` lines 629-651): `socket()` failure
skips to the next candidate; `setsockopt()` failure closes the socket and
`return`s — aborting the whole attempt; `bind()` failure closes the socket and
skips; otherwise the loop `break`s with this candidate.  The second component
collects the indices whose socket was closed by `::close`. -/
def server_bind_loop : Nat → List candidate → connector_result × List Nat
  | _, [] => (.exhausted, [])
  | i, c :: rest =>
    if c.socket_ok = false then server_bind_loop (i + 1) rest
    else if c.sockopt_ok = false then (.aborted, [i])
    else if c.action_ok = false then
      let p := server_bind_loop (i + 1) rest
      (p.1, i :: p.2)
    else (.bound i, [])

/-- Candidate loop of `client::concurrent_connector` (`part_002` lines
310-326): `socket()` failure skips; `connect()` failure closes the socket and
skips; first full success wins.  (This loop has no option-setting step.) -/
def client_connect_loop : Nat → List candidate → connector_result × List Nat
  | _, [] => (.exhausted, [])
  | i, c :: rest =>
    if c.socket_ok = false then client_connect_loop (i + 1) rest
    else if c.action_ok = false then
      let p := client_connect_loop (i + 1) rest
      (p.1, i :: p.2)
    else (.bound i, [])

/-- Candidate loop of `server::reconnect` in the first document of
`server.cpp` (lines 163-181): `socket()` failure skips; `setsockopt()` failure
`return false`s without closing; `bind()` failure closes the socket and
`return false`s — neither failure proceeds to the next candidate. -/
def server_reconnect_loop : Nat → List candidate → connector_result × List Nat
  | _, [] => (.exhausted, [])
  | i, c :: rest =>
    if c.socket_ok = false then server_reconnect_loop (i + 1) rest
    else if c.sockopt_ok = false then (.aborted, [])
    else if c.action_ok = false then (.aborted, [i])
    else (.bound i, [])

/-- Function `server::close` (`part_000` lines 292-310): if `socket_fd_ < 0` report
success; otherwise `shutdown` and `close` the socket (modelled as succeeding on
an open descriptor) and set `socket_fd_ = -1`. -/
def server_close (s : server_state) : Bool × server_state :=
  if s.socket_closed then (true, s)
  else (true, { s with socket_closed := true })

/-- Function `server::close_child` (`part_000` lines 312-330): if `connected_fd_ < 0`
return `!(connected_ = false)`; otherwise `shutdown`/`close` the child
descriptor (modelled as succeeding), set `connected_fd_ = -1` and return
`!(connected_ = false)`.  Either way `connected_` ends up `false` and the
call reports `true`. -/
def server_close_child (s : server_state) : Bool × server_state :=
  if s.child_closed then (true, { s with connected := false })
  else (true, { s with child_closed := true, connected := false })

/-- Function `server::disconnect` (`part_000` lines 62-70): raise the three termination
flags, then `if(results_) ::freeaddrinfo(results_)` — note `results_` is *not*
set to null afterwards — then `return close_child() & close()`.  Calling
`freeaddrinfo` on a pointer whose allocation was already released is undefined
behaviour (a double free), modelled as `none`. -/
def server_disconnect (s : server_state) : Option (Bool × server_state) :=
  let s0 := { s with terminate_send := true, terminate_receive := true,
                     terminate_concurrent := true }
  match s0.results with
  | .dangling => none
  | .null =>
    let (b1, s1) := server_close_child s0
    let (b2, s2) := server_close s1
    some (b1 && b2, s2)
  | .alive =>
    let sf := { s0 with results := .dangling }
    let (b1, s1) := server_close_child sf
    let (b2, s2) := server_close s1
    some (b1 && b2, s2)

/-- Outcome of a `connect`-family call: the returned boolean, the session
state after the synchronous part, and whether a connect attempt was started
(a `concurrent_connector` thread spawned or called inline). -/
structure connect_outcome (σ : Type) where
  retval : Bool
  state : σ
  started : Bool
deriving Repr, DecidableEq

/-- Function `server::connect` (`part_000` lines 46-60): `if(connecting_) return
false;` before anything else; otherwise disconnect any existing session,
record ip/port, set `connecting_`, reset `current_intent_`, set `is_tcp_`,
clear `terminate_concurrent_`, and detach a `concurrent_connector` thread.
(`none` propagates the undefined behaviour of the embedded `disconnect`.) -/
def server_connect (s : server_state) (ip : String) (port : Int)
    (socket_type : Int) : Option (connect_outcome server_state) :=
  if s.connecting then some ⟨false, s, false⟩
  else
    let s1? := if s.connected then (server_disconnect s).map (·.2) else some s
    s1?.map fun s1 =>
      ⟨true,
       { s1 with ip_ := ip, port_ := port, connecting := true, current_intent := 0,
                 is_tcp := decide (socket_type ≠ SOCK_DGRAM),
                 terminate_concurrent := false },
       true⟩

/-- Function `client::close` (`part_002` lines 265-284): if `socket_fd_ < 0` return
`true` (leaving `connected_` untouched); otherwise `shutdown`/`close`, set
`socket_fd_ = -1`, store `false` into `connected_`. -/
def client_close (s : client_state) : Bool × client_state :=
  if s.socket_closed then (true, s)
  else (true, { s with socket_closed := true, connected := false })

/-- Function `client::disconnect` (`part_002` lines 63-69): raise the three termination
flags, then `return close()`. -/
def client_disconnect (s : client_state) : Bool × client_state :=
  client_close { s with terminate_send := true, terminate_receive := true,
                        terminate_concurrent := true }

/-- Function `client::connect` (`part_002` lines 43-61): `if(connecting_.load()) return
false;` before anything else; otherwise disconnect any existing session,
record ip/port, set `connecting_`, reset `current_intent_`, set `is_tcp_`,
clear `terminate_concurrent_`, and start `concurrent_connector` (detached or
inline according to `concurrent`). -/
def client_connect (s : client_state) (ip : String) (port : Int)
    (socket_type : Int) : connect_outcome client_state :=
  if s.connecting then ⟨false, s, false⟩
  else
    let s1 := if s.connected then (client_disconnect s).2 else s
    ⟨true,
     { s1 with ip_ := ip, port_ := port, connecting := true, current_intent := 0,
               is_tcp := decide (socket_type ≠ SOCK_DGRAM),
               terminate_concurrent := false },
     true⟩

/-- Synchronous part of the four concurrent-transfer wrappers of the
`part_000` server (`receive_concurrently` lines 174-182,
`receive_all_concurrently` lines 163-172, `send_concurrently` lines 269-277,
`send_all_concurrently` lines 258-267), which all share the same guard:
`if(!connected_ || *size == 0){ *size = 0; return false; }` and otherwise
detach the background task.  Components: returned boolean, value left in the
caller's `*size` location by the synchronous call, whether a task was
spawned. -/
def server_transfer_concurrently (connected : Bool) (size : Int) :
    Bool × Int × Bool :=
  if connected = false ∨ size = 0 then (false, 0, false)
  else (true, size, true)

/-- Function `client::receive_concurrently` of the first document of `part_003`
(lines 123-132): `if(!connected_){ *size = -1; return false; }`, otherwise
detach `concurrent_receive`. -/
def client_receive_concurrently_p3 (connected : Bool) (size : Int) :
    Bool × Int × Bool :=
  if connected = false then (false, -1, false)
  else (true, size, true)

/-- Function `client::send_concurrently` of the first document of `part_003`
(lines 173-182): `if(!connected_){ *size = -1; return false; }`, otherwise
detach `concurrent_send`. -/
def client_send_concurrently_p3 (connected : Bool) (size : Int) :
    Bool × Int × Bool :=
  if connected = false then (false, -1, false)
  else (true, size, true)

/-- A candidate the `part_000` server bind loop moves past: either `socket()`
fails (plain `continue`), or socket and options succeed but `bind()` fails
(close, then `continue`). -/
def server_skippable (c : candidate) : Bool :=
  !c.socket_ok || (c.sockopt_ok && !c.action_ok)

/-- A candidate the `part_002` client connect loop moves past: `socket()`
fails, or the socket opens but `connect()` fails (close, then `continue`). -/
def client_skippable (c : candidate) : Bool :=
  !c.socket_ok || !c.action_ok

/-- A connected datagram session of the `part_000` server: UDP
(`is_tcp_ = false`), recorded peer address 1, live `results_` allocation (the
UDP path of `concurrent_connector` does not free it), open `socket_fd_`,
`connected_fd_` never set (UDP transfers use `socket_fd_`). -/
def udp_server_example : server_state :=
  { ip_ := "192.168.0.2", port_ := 1313, connected := true, connecting := false,
    is_tcp := false, terminate_send := false, terminate_receive := false,
    terminate_concurrent := false, current_intent := 0, max_intents := 10,
    results := .alive, socket_closed := false, child_closed := true, peer := 1 }

/-- The same datagram session with `max_intents_ = 0`. -/
def udp_server_zero_intents : server_state :=
  { udp_server_example with max_intents := 0 }

/-- The state `server::disconnect` leaves behind when called on
`udp_server_example`: termination flags raised, `results_` freed but still
pointing at the released allocation (dangling), sockets closed,
`connected_ = false`. -/
def udp_server_disconnected_once : server_state :=
  { ip_ := "192.168.0.2", port_ := 1313, connected := false, connecting := false,
    is_tcp := false, terminate_send := true, terminate_receive := true,
    terminate_concurrent := true, current_intent := 0, max_intents := 10,
    results := .dangling, socket_closed := true, child_closed := true, peer := 1 }

/-- State of a `part_000` datagram server right after `bind` succeeded inside
`concurrent_connector`: still connecting, not yet connected, no datagram
received, no peer recorded. -/
def udp_post_bind_example : server_state :=
  { ip_ := "192.168.0.2", port_ := 1313, connected := false, connecting := true,
    is_tcp := false, terminate_send := false, terminate_receive := false,
    terminate_concurrent := false, current_intent := 0, max_intents := 10,
    results := .alive, socket_closed := false, child_closed := true, peer := 0 }

/-- A connected `part_002` client session. -/
def client_example : client_state :=
  { ip_ := "192.168.0.2", port_ := 1313, connected := true, connecting := false,
    is_tcp := true, terminate_send := false, terminate_receive := false,
    terminate_concurrent := false, current_intent := 0, max_intents := 10,
    socket_closed := false }

/-- The same client session with `max_intents_ = 0`. -/
def client_zero_intents : client_state :=
  { client_example with max_intents := 0 }

/-- Claim C1 — the claim fails on the code and the code's own TODO
(`server.cpp` lines 409-410: "check if the data comes from only for initial
client_ and nobody elses") records the missing check.  Failing input: a
connected datagram session whose recorded peer is address 1; a third party at
address 2 sends a 4-byte datagram during `receive_all(buffer, 4)`.  The
embedded `server::receive_all` counts the 4 foreign bytes in the returned
total and — because `recvfrom` uses `client_->ai_addr` as its address output —
overwrites the recorded peer with the impostor's address 2, instead of
discarding the datagram and leaving the peer untouched. -/
theorem server_receive_all_accepts_foreign_sender :
    udp_server_example.peer = 1 ∧ (2 : Nat) ≠ 1 ∧
    server_receive_all udp_server_example 4 none [⟨2, 4⟩] = some ⟨4, 2, true, 0⟩ := by
  refine ⟨rfl, by decide, ?_⟩
  decide

/-- Claim C3 — the claim holds for the server but fails on the client: in
`client::receive_all` (`part_002` lines 124-129) a zero `recv` result returns
0 *without* calling `disconnect()` — although the adjacent comment says "The
server has disconnected and therefore disconnecting client" — so
`is_connected()` stays `true`.  The server's `receive_all` (`part_000` lines
139-143) does call `disconnect()`, ending with `connected_ = false`.  Failing
input: a connected client calls `receive_all(buffer, 4)` and the underlying
`recv` returns 0. -/
theorem client_receive_all_zero_result_keeps_connected :
    client_example.connected = true ∧
    client_receive_all client_example 4 none [0] = some ⟨0, true, 0⟩ ∧
    server_receive_all udp_server_example 4 none [⟨2, 0⟩] = some ⟨0, 2, false, 0⟩ := by
  refine ⟨rfl, ?_, ?_⟩ <;> decide

/-- Claim C7 — the claim fails on the code: `server::disconnect` (`part_000`
lines 62-70) calls `freeaddrinfo(results_)` without nulling `results_`, and
the UDP success path of `concurrent_connector` leaves `results_` allocated.
So on a connected datagram session the first `disconnect()` succeeds (and does
leave `connected_ = false`), but it leaves `results_` dangling, and a second
`disconnect()` re-frees the released allocation — a double free (undefined
behaviour / glibc abort), not the promised panic-free idempotent call.  (The
Winsock revision of `disconnect` adds `results_ = nullptr;`, confirming the
intent.) -/
theorem server_disconnect_double_free :
    server_disconnect udp_server_example = some (true, udp_server_disconnected_once) ∧
    udp_server_disconnected_once.connected = false ∧
    server_disconnect udp_server_disconnected_once = none := by
  refine ⟨?_, rfl, ?_⟩ <;> decide

/-- Claim C2, counterexample — the claim fails on the `part_000` revision: its
`concurrent_connector` (lines 419-426) marks a datagram session connected
immediately after `bind` succeeds, performing *no* identifier receive at all.
Concrete input: the post-bind state below (not connected, no datagram ever
received); the UDP finalization step leaves it connected, so a first datagram
with a non-matching payload would find `is_connected() = true`, where the
claim requires `false`. -/
theorem server_udp_connected_without_identifier :
    udp_post_bind_example.connected = false ∧
    (server_udp_finalize udp_post_bind_example).connected = true := by
  exact ⟨rfl, rfl⟩

/-- Claim C2, amended — in the handshake-performing revision (`server.cpp`,
Winsock document, lines 691-721) the claim holds: the server transitions to
Connected after exactly one blocking receive (the embedding consumes exactly
one datagram), and it becomes connected precisely when the received payload
compares equal (as a C string) to the 11-byte `"identifier"` literal; on a
match the sender is recorded as the peer, and on a mismatch the state is left
not-connected with only the termination/connecting flags cleared. -/
theorem server_udp_handshake_gates_connected :
    ∀ (s : server_state) (d : handshake_datagram), s.connected = false →
      ((server_udp_handshake s d).connected = cstr_eq d.payload identifier_bytes) ∧
      (cstr_eq d.payload identifier_bytes = true →
        (server_udp_handshake s d).peer = d.sender) ∧
      (cstr_eq d.payload identifier_bytes = false →
        server_udp_handshake s d
          = { s with terminate_receive := false, terminate_send := false,
                     connecting := false }) := by
  intro s d hconn
  by_cases h : cstr_eq d.payload identifier_bytes = true
  · refine ⟨?_, fun _ => ?_, fun hf => ?_⟩
    · simp [server_udp_handshake, h]
    · simp [server_udp_handshake, h]
    · rw [h] at hf
      cases hf
  · have h' : cstr_eq d.payload identifier_bytes = false := by
      revert h
      cases cstr_eq d.payload identifier_bytes <;> simp
    refine ⟨?_, fun ht => ?_, fun _ => ?_⟩
    · simp [server_udp_handshake, h', hconn]
    · rw [h'] at ht
      cases ht
    · simp [server_udp_handshake, h']

/-- Witness for `server_udp_handshake_gates_connected`: the post-bind state
with a datagram carrying exactly the `"identifier"` payload from address 3. -/
theorem server_udp_handshake_gates_connected_witness :
    ((server_udp_handshake udp_post_bind_example ⟨3, identifier_bytes⟩).connected
        = cstr_eq identifier_bytes identifier_bytes) ∧
    (cstr_eq identifier_bytes identifier_bytes = true →
      (server_udp_handshake udp_post_bind_example ⟨3, identifier_bytes⟩).peer = 3) ∧
    (cstr_eq identifier_bytes identifier_bytes = false →
      server_udp_handshake udp_post_bind_example ⟨3, identifier_bytes⟩
        = { udp_post_bind_example with terminate_receive := false,
                                       terminate_send := false, connecting := false }) :=
  server_udp_handshake_gates_connected udp_post_bind_example ⟨3, identifier_bytes⟩ rfl

/-- Claim C9, counterexample — the claim fails on the `part_003` client: its
`receive_concurrently` (lines 123-132), called while not connected with the
output-size location holding 10, returns `false` and spawns nothing, but
stores −1 — not 0 — into the output-size location. -/
theorem client_receive_concurrently_p3_stores_minus_one :
    client_receive_concurrently_p3 false 10 = (false, -1, false) ∧
    ((-1 : Int) ≠ 0) := by
  refine ⟨?_, by decide⟩
  decide

/-- Claim C9, amended — every concurrent transfer wrapper invoked while not
connected fails synchronously (`false`), spawns no background task, and
mutates the caller's output-size location only by storing a failure sentinel:
the `part_000` server wrappers (`receive_concurrently`,
`receive_all_concurrently`, `send_concurrently`, `send_all_concurrently`, all
sharing the same guard) store 0, while the `part_003` client wrappers store
−1. -/
theorem transfer_concurrently_not_connected :
    ∀ size : Int,
      server_transfer_concurrently false size = (false, 0, false) ∧
      client_receive_concurrently_p3 false size = (false, -1, false) ∧
      client_send_concurrently_p3 false size = (false, -1, false) := by
  intro size
  refine ⟨?_, ?_, ?_⟩ <;>
    simp [server_transfer_concurrently, client_receive_concurrently_p3,
      client_send_concurrently_p3]

/-- Claim C10 — passing a null breaker to a bulk transfer is exactly passing a
pointer to a flag that is always false: the embedded calls replace `none` by
the local never-true flag before the loop starts (`bool never{false};
if(breaker == nullptr) breaker = &never;`), so `receive_all`/`send_all` with
no breaker coincide with the same call given the constantly-false breaker on
every session state, size and trace. -/
theorem null_breaker_equals_never_false :
    ∀ (s : server_state) (c : client_state) (size : Int) (trace : List datagram)
      (ctrace : List Int),
      server_receive_all s size none trace
          = server_receive_all s size (some fun _ => false) trace ∧
      server_send_all s size none trace
          = server_send_all s size (some fun _ => false) trace ∧
      client_receive_all c size none ctrace
          = client_receive_all c size (some fun _ => false) ctrace :=
  fun _ _ _ _ _ => ⟨rfl, rfl, rfl⟩

/-- Claim C8 — `connect` fails fast while a connect attempt is in flight: with
`connecting_` true, both `server::connect` (`part_000` lines 46-60) and
`client::connect` (`part_002` lines 43-61) return `false` as their very first
action — no teardown, no change to the recorded address/port/transport kind or
the retry counter (the state is returned unchanged), and no attempt started. -/
theorem connect_fails_fast_when_connecting :
    (∀ (s : server_state) (ip : String) (port socket_type : Int),
      s.connecting = true →
      server_connect s ip port socket_type = some ⟨false, s, false⟩) ∧
    (∀ (c : client_state) (ip : String) (port socket_type : Int),
      c.connecting = true →
      client_connect c ip port socket_type = ⟨false, c, false⟩) := by
  constructor
  · intro s ip port socket_type h
    simp [server_connect, h]
  · intro c ip port socket_type h
    simp [client_connect, h]

/-- Witness for `connect_fails_fast_when_connecting`: the in-flight post-bind
server state and the same client state marked connecting. -/
theorem connect_fails_fast_when_connecting_witness :
    server_connect udp_post_bind_example "10.0.0.9" 4242 SOCK_DGRAM
        = some ⟨false, udp_post_bind_example, false⟩ ∧
    client_connect { client_example with connecting := true } "10.0.0.9" 4242 SOCK_DGRAM
        = ⟨false, { client_example with connecting := true }, false⟩ :=
  ⟨connect_fails_fast_when_connecting.1 udp_post_bind_example "10.0.0.9" 4242
      SOCK_DGRAM rfl,
   connect_fails_fast_when_connecting.2 { client_example with connecting := true }
      "10.0.0.9" 4242 SOCK_DGRAM rfl⟩

/-- Claim C4, counterexample — the claim fails on the server's concurrent
receive: the loop head of `server::concurrent_receive_all` (`part_000` line
480) reads `terminate_send_`, never `terminate_receive_`.  Concrete input:
`terminate_receive_` is true at every observation while `terminate_send_` and
the breaker stay false; the claim requires the loop to stop at the first
iteration boundary with 0 bytes, but the embedded loop performs the receive
and returns the full 4 bytes. -/
theorem server_concurrent_receive_ignores_terminate_receive :
    server_concurrent_receive_all_loop false 10 4 (fun _ => false) (fun _ => true)
        (fun _ => false) 0 0 0 1 0 [⟨2, 4⟩] = some ⟨4, 2, true, 0⟩ ∧
    (some (transfer_result.mk 4 2 true 0) ≠ some ⟨0, 1, true, 0⟩) := by
  refine ⟨?_, by decide⟩
  decide

/-- Claim C4, amended — what the loops actually poll: the concurrent `_all`
loops stop at the next iteration boundary and yield the bytes transferred so
far (never an error indicator) whenever the breaker or the termination flag
they poll is observed true — but that flag is `terminate_send_` for the
*server's* concurrent receive loop (its own direction's flag is ignored),
while the client's concurrent receive loop polls `terminate_receive_`; the
synchronous `receive_all`/`send_all` loops poll only the breaker and no
termination flag at all. -/
theorem bulk_transfer_cancellation_yields_partial_count :
    (∀ (is_tcp : Bool) (M : Nat) (size : Int) (ts tr bk : Nat → Bool) (i : Nat)
       (total : Int) (err peer sleeps : Nat) (trace : List datagram),
      ts i = true ∨ bk i = true →
      server_concurrent_receive_all_loop is_tcp M size ts tr bk i total err peer
          sleeps trace = some ⟨total, peer, true, sleeps⟩) ∧
    (∀ (M : Nat) (size : Int) (tr bk : Nat → Bool) (i : Nat) (total : Int)
       (err sleeps : Nat) (trace : List Int),
      tr i = true ∨ bk i = true →
      client_concurrent_receive_all_loop M size tr bk i total err sleeps trace
        = some ⟨total, true, sleeps⟩) ∧
    (∀ (is_tcp : Bool) (M : Nat) (size : Int) (bk : Nat → Bool) (i : Nat)
       (total : Int) (err peer sleeps : Nat) (trace : List datagram),
      bk i = true →
      server_receive_all_loop is_tcp M size bk i total err peer sleeps trace
        = some ⟨total, peer, true, sleeps⟩) ∧
    (∀ (M : Nat) (size : Int) (bk : Nat → Bool) (i : Nat) (total : Int)
       (err peer sleeps : Nat) (trace : List datagram),
      bk i = true →
      server_send_all_loop M size bk i total err peer sleeps trace
        = some ⟨total, peer, true, sleeps⟩) := by
  refine ⟨?_, ?_, ?_, ?_⟩
  · intro is_tcp M size ts tr bk i total err peer sleeps trace h
    cases trace <;> rcases h with h | h <;>
      simp [server_concurrent_receive_all_loop, h]
  · intro M size tr bk i total err sleeps trace h
    cases trace <;> rcases h with h | h <;>
      simp [client_concurrent_receive_all_loop, h]
  · intro is_tcp M size bk i total err peer sleeps trace h
    cases trace <;> simp [server_receive_all_loop, h]
  · intro M size bk i total err peer sleeps trace h
    cases trace <;> simp [server_send_all_loop, h]

/-- Witness for `bulk_transfer_cancellation_yields_partial_count`: each loop
stopped at an iteration boundary by its polled flag or the breaker, with one
unread datagram pending and 2 bytes already transferred. -/
theorem bulk_transfer_cancellation_yields_partial_count_witness :
    server_concurrent_receive_all_loop false 10 4 (fun _ => true) (fun _ => false)
        (fun _ => false) 1 2 0 5 0 [⟨2, 4⟩] = some ⟨2, 5, true, 0⟩ ∧
    client_concurrent_receive_all_loop 10 4 (fun _ => true) (fun _ => false)
        1 2 0 0 [4] = some ⟨2, true, 0⟩ ∧
    server_receive_all_loop false 10 4 (fun _ => true) 1 2 0 5 0 [⟨2, 4⟩]
        = some ⟨2, 5, true, 0⟩ ∧
    server_send_all_loop 10 4 (fun _ => true) 1 2 0 5 0 [⟨2, 4⟩]
        = some ⟨2, 5, true, 0⟩ :=
  ⟨bulk_transfer_cancellation_yields_partial_count.1 false 10 4 (fun _ => true)
      (fun _ => false) (fun _ => false) 1 2 0 5 0 [⟨2, 4⟩] (Or.inl rfl),
   bulk_transfer_cancellation_yields_partial_count.2.1 10 4 (fun _ => true)
      (fun _ => false) 1 2 0 0 [4] (Or.inl rfl),
   bulk_transfer_cancellation_yields_partial_count.2.2.1 false 10 4 (fun _ => true)
      1 2 0 5 0 [⟨2, 4⟩] rfl,
   bulk_transfer_cancellation_yields_partial_count.2.2.2 10 4 (fun _ => true)
      1 2 0 5 0 [⟨2, 4⟩] rfl⟩

/-- One retrying step of the `server::receive_all` loop: a transient error
with the counter still within `max_intents_` sleeps once and re-enters the
loop with the same total and remaining range. -/
lemma server_receive_all_loop_retry_step (is_tcp : Bool) (M : Nat) (size : Int)
    (i : Nat) (total : Int) (err peer sleeps : Nat) (d : datagram)
    (rest : List datagram) (htot : total < size) (hd : d.result < 0)
    (herr : ¬ err + 1 > M) :
    server_receive_all_loop is_tcp M size (fun _ => false) i total err peer sleeps
        (d :: rest)
      = server_receive_all_loop is_tcp M size (fun _ => false) (i + 1) total (err + 1)
          peer (sleeps + 1) rest := by
  have h0 : ¬ d.result = 0 := by omega
  have h1 : ¬ 0 ≤ d.result := by omega
  simp [server_receive_all_loop, htot, h0, h1, hd, herr, ite_self]

/-- Final step of the `server::receive_all` loop: a transient error that
pushes the counter past `max_intents_` returns −1 before sleeping. -/
lemma server_receive_all_loop_abort_step (is_tcp : Bool) (M : Nat) (size : Int)
    (i : Nat) (total : Int) (err peer sleeps : Nat) (d : datagram)
    (rest : List datagram) (htot : total < size) (hd : d.result < 0)
    (herr : err + 1 > M) :
    server_receive_all_loop is_tcp M size (fun _ => false) i total err peer sleeps
        (d :: rest)
      = some ⟨-1, peer, true, sleeps⟩ := by
  have h0 : ¬ d.result = 0 := by omega
  have h1 : ¬ 0 ≤ d.result := by omega
  simp [server_receive_all_loop, htot, h0, h1, hd, herr, ite_self]

/-- Running the `server::receive_all` loop against `n + 1` consecutive
transient errors with `err + (n + 1) = max_intents_ + 1`: the call returns −1
after exactly `n` sleeps, leaving total and recorded peer untouched. -/
lemma server_receive_all_loop_exhaust (is_tcp : Bool) (M : Nat) (size : Int)
    (sender : Nat) (r : Int) (hr : r < 0) :
    ∀ (n i : Nat) (total : Int) (err peer sleeps : Nat) (rest : List datagram),
      total < size → err + (n + 1) = M + 1 →
      server_receive_all_loop is_tcp M size (fun _ => false) i total err peer sleeps
          (List.replicate (n + 1) ⟨sender, r⟩ ++ rest)
        = some ⟨-1, peer, true, sleeps + n⟩ := by
  intro n
  induction n with
  | zero =>
    intro i total err peer sleeps rest htot herr
    rw [List.replicate_one, List.cons_append, List.nil_append]
    rw [server_receive_all_loop_abort_step is_tcp M size i total err peer sleeps
      _ rest htot hr (by omega), Nat.add_zero]
  | succ n ih =>
    intro i total err peer sleeps rest htot herr
    rw [List.replicate_succ, List.cons_append]
    rw [server_receive_all_loop_retry_step is_tcp M size i total err peer sleeps
      _ _ htot hr (by omega)]
    rw [ih (i + 1) total (err + 1) peer (sleeps + 1) rest htot (by omega)]
    have hs : sleeps + 1 + n = sleeps + (n + 1) := by omega
    rw [hs]

/-- One retrying step of the `client::receive_all` loop. -/
lemma client_receive_all_loop_retry_step (M : Nat) (size : Int) (i : Nat)
    (total : Int) (err sleeps : Nat) (r : Int) (rest : List Int)
    (htot : total < size) (hr : r < 0) (herr : ¬ err + 1 > M) :
    client_receive_all_loop M size (fun _ => false) i total err sleeps (r :: rest)
      = client_receive_all_loop M size (fun _ => false) (i + 1) total (err + 1)
          (sleeps + 1) rest := by
  have h0 : r ≤ 0 := by omega
  have h1 : ¬ r = 0 := by omega
  simp [client_receive_all_loop, htot, h0, h1, herr]

/-- Final step of the `client::receive_all` loop: the counter passes
`max_intents_` and −1 is returned before sleeping. -/
lemma client_receive_all_loop_abort_step (M : Nat) (size : Int) (i : Nat)
    (total : Int) (err sleeps : Nat) (r : Int) (rest : List Int)
    (htot : total < size) (hr : r < 0) (herr : err + 1 > M) :
    client_receive_all_loop M size (fun _ => false) i total err sleeps (r :: rest)
      = some ⟨-1, true, sleeps⟩ := by
  have h0 : r ≤ 0 := by omega
  have h1 : ¬ r = 0 := by omega
  simp [client_receive_all_loop, htot, h0, h1, herr]

/-- Running the `client::receive_all` loop against `n + 1` consecutive transient errors
with `err + (n + 1) = max_intents_ + 1`. -/
lemma client_receive_all_loop_exhaust (M : Nat) (size : Int) (r : Int)
    (hr : r < 0) :
    ∀ (n i : Nat) (total : Int) (err sleeps : Nat) (rest : List Int),
      total < size → err + (n + 1) = M + 1 →
      client_receive_all_loop M size (fun _ => false) i total err sleeps
          (List.replicate (n + 1) r ++ rest)
        = some ⟨-1, true, sleeps + n⟩ := by
  intro n
  induction n with
  | zero =>
    intro i total err sleeps rest htot herr
    rw [List.replicate_one, List.cons_append, List.nil_append]
    rw [client_receive_all_loop_abort_step M size i total err sleeps r rest htot hr
      (by omega), Nat.add_zero]
  | succ n ih =>
    intro i total err sleeps rest htot herr
    rw [List.replicate_succ, List.cons_append]
    rw [client_receive_all_loop_retry_step M size i total err sleeps r _ htot hr
      (by omega)]
    rw [ih (i + 1) total (err + 1) (sleeps + 1) rest htot (by omega)]
    have hs : sleeps + 1 + n = sleeps + (n + 1) := by omega
    rw [hs]

/-- Claim C5 — confirmed: both `server::receive_all` (`part_000` lines 145-156)
and `client::receive_all` (`part_002` lines 130-144) keep a call-local error
counter, bump it on every negative underlying result, return −1 as soon as it
exceeds `max_intents_`, and sleep the 5 ms retry delay only while the counter
is still within bound: against `max_intents_ + 1` consecutive negative
results the call returns −1 after exactly `max_intents_` sleeps with the same
remaining range retried throughout (total stays 0 and nothing of the trailing
trace is consumed).  With `max_intents_ = 0` this is −1 on the first negative
result with zero sleeps — before any sleep. -/
theorem receive_all_error_counter_bound :
    (∀ (s : server_state) (size : Int) (sender : Nat) (r : Int)
       (rest : List datagram), s.connected = true → 0 < size → r < 0 →
      server_receive_all s size none
          (List.replicate (s.max_intents + 1) ⟨sender, r⟩ ++ rest)
        = some ⟨-1, s.peer, true, s.max_intents⟩) ∧
    (∀ (c : client_state) (size : Int) (r : Int) (rest : List Int),
      c.connected = true → 0 < size → r < 0 →
      client_receive_all c size none (List.replicate (c.max_intents + 1) r ++ rest)
        = some ⟨-1, true, c.max_intents⟩) := by
  constructor
  · intro s size sender r rest hconn hsize hr
    rw [server_receive_all, if_neg (by simp [hconn]; omega)]
    have h := server_receive_all_loop_exhaust s.is_tcp s.max_intents size sender r hr
      s.max_intents 0 0 0 s.peer 0 rest hsize (by omega)
    simpa [resolve_breaker] using h
  · intro c size r rest hconn hsize hr
    rw [client_receive_all, if_neg (by simp [hconn]; omega)]
    have h := client_receive_all_loop_exhaust c.max_intents size r hr
      c.max_intents 0 0 0 0 rest hsize (by omega)
    simpa [resolve_breaker] using h

/-- Witness for `receive_all_error_counter_bound`: sessions configured with
`max_intents_ = 0`; the single negative result yields −1 with zero sleeps. -/
theorem receive_all_error_counter_bound_witness :
    server_receive_all udp_server_zero_intents 4 none
        (List.replicate (udp_server_zero_intents.max_intents + 1) ⟨7, -1⟩ ++ [])
      = some ⟨-1, udp_server_zero_intents.peer, true,
              udp_server_zero_intents.max_intents⟩ ∧
    client_receive_all client_zero_intents 4 none
        (List.replicate (client_zero_intents.max_intents + 1) (-1) ++ [])
      = some ⟨-1, true, client_zero_intents.max_intents⟩ :=
  ⟨receive_all_error_counter_bound.1 udp_server_zero_intents 4 7 (-1) [] rfl
      (by decide) (by decide),
   receive_all_error_counter_bound.2 client_zero_intents 4 (-1) [] rfl
      (by decide) (by decide)⟩

/-- Skipping a prefix of failing candidates in the `part_000` server bind
loop: candidates that fail `socket()` or fail `bind()` are passed over and
the loop continues at the next index. -/
lemma server_bind_loop_skips :
    ∀ (cs : List candidate) (i : Nat) (tail : List candidate),
      (∀ x ∈ cs, server_skippable x = true) →
      (server_bind_loop i (cs ++ tail)).1
        = (server_bind_loop (i + cs.length) tail).1 := by
  intro cs
  induction cs with
  | nil =>
    intro i tail _
    simp
  | cons x cs ih =>
    intro i tail hall
    have hx := hall x (List.mem_cons_self x cs)
    have hrest : ∀ y ∈ cs, server_skippable y = true :=
      fun y hy => hall y (List.mem_cons_of_mem x hy)
    have e : i + (x :: cs).length = i + 1 + cs.length := by
      simp only [List.length_cons]
      omega
    rw [e, ← ih (i + 1) tail hrest, List.cons_append]
    cases hso : x.socket_ok with
    | false =>
      simp [server_bind_loop, hso]
    | true =>
      simp only [server_skippable, hso, Bool.not_true, Bool.false_or,
        Bool.and_eq_true, Bool.not_eq_true'] at hx
      simp [server_bind_loop, hso, hx.1, hx.2]

/-- Skipping a prefix of failing candidates in the `part_002` client connect
loop. -/
lemma client_connect_loop_skips :
    ∀ (cs : List candidate) (i : Nat) (tail : List candidate),
      (∀ x ∈ cs, client_skippable x = true) →
      (client_connect_loop i (cs ++ tail)).1
        = (client_connect_loop (i + cs.length) tail).1 := by
  intro cs
  induction cs with
  | nil =>
    intro i tail _
    simp
  | cons x cs ih =>
    intro i tail hall
    have hx := hall x (List.mem_cons_self x cs)
    have hrest : ∀ y ∈ cs, client_skippable y = true :=
      fun y hy => hall y (List.mem_cons_of_mem x hy)
    have e : i + (x :: cs).length = i + 1 + cs.length := by
      simp only [List.length_cons]
      omega
    rw [e, ← ih (i + 1) tail hrest, List.cons_append]
    cases hso : x.socket_ok with
    | false =>
      simp [client_connect_loop, hso]
    | true =>
      simp only [client_skippable, hso, Bool.not_true, Bool.false_or,
        Bool.not_eq_true'] at hx
      simp [client_connect_loop, hso, hx]

/-- Claim C6, counterexample — the claim fails on the option-application step:
in the `part_000` / Winsock server bind loop a `setsockopt` failure closes
the socket and `return`s, aborting the whole attempt instead of proceeding to
the next candidate.  Concrete input: candidate 0 opens its socket but fails
`setsockopt`, candidate 1 would fully succeed; the claim predicts success at
candidate 1, the loop aborts with candidate 0's socket closed. -/
theorem server_bind_loop_sockopt_aborts :
    server_bind_loop 0 [⟨true, false, true⟩, ⟨true, true, true⟩]
        = (.aborted, [0]) ∧
    (connector_result.aborted ≠ .bound 1) := by
  refine ⟨?_, by decide⟩
  decide

/-- Claim C6, amended — first-fully-succeeding candidate wins, with the
implemented failure handling: in the `part_000` server bind loop, candidates
failing `socket()` are skipped and candidates failing `bind()` are closed and
skipped, so after any prefix of such candidates the first one passing all
three steps is bound at its index — but a candidate whose socket opens and
then fails `setsockopt` closes its socket and aborts the whole attempt; the
`part_002` client loop (no option step) skips every candidate failing
`socket()` or `connect()` and stops at the first full success; in the first
document of `server.cpp`, `reconnect` aborts the attempt already on a `bind`
failure. -/
theorem connector_first_success_wins :
    (∀ (cs : List candidate) (c : candidate) (rest : List candidate) (i : Nat),
      (∀ x ∈ cs, server_skippable x = true) →
      c.socket_ok = true → c.sockopt_ok = true → c.action_ok = true →
      (server_bind_loop i (cs ++ c :: rest)).1 = .bound (i + cs.length)) ∧
    (∀ (cs : List candidate) (c : candidate) (rest : List candidate) (i : Nat),
      (∀ x ∈ cs, server_skippable x = true) →
      c.socket_ok = true → c.sockopt_ok = false →
      (server_bind_loop i (cs ++ c :: rest)).1 = .aborted) ∧
    (∀ (cs : List candidate) (c : candidate) (rest : List candidate) (i : Nat),
      (∀ x ∈ cs, client_skippable x = true) →
      c.socket_ok = true → c.action_ok = true →
      (client_connect_loop i (cs ++ c :: rest)).1 = .bound (i + cs.length)) ∧
    (∀ (c : candidate) (rest : List candidate) (i : Nat),
      c.socket_ok = true → c.sockopt_ok = true → c.action_ok = false →
      (server_reconnect_loop i (c :: rest)).1 = .aborted) := by
  refine ⟨?_, ?_, ?_, ?_⟩
  · intro cs c rest i hcs h1 h2 h3
    rw [server_bind_loop_skips cs i (c :: rest) hcs]
    simp [server_bind_loop, h1, h2, h3]
  · intro cs c rest i hcs h1 h2
    rw [server_bind_loop_skips cs i (c :: rest) hcs]
    simp [server_bind_loop, h1, h2]
  · intro cs c rest i hcs h1 h2
    rw [client_connect_loop_skips cs i (c :: rest) hcs]
    simp [client_connect_loop, h1, h2]
  · intro c rest i h1 h2 h3
    simp [server_reconnect_loop, h1, h2, h3]

/-- Witness for `connector_first_success_wins`: prefixes holding one
socket-failing and one bind-failing (resp. connect-failing) candidate before
the deciding candidate. -/
theorem connector_first_success_wins_witness :
    (server_bind_loop 3 ([⟨false, true, true⟩, ⟨true, true, false⟩]
        ++ ⟨true, true, true⟩ :: [⟨true, true, true⟩])).1 = .bound (3 + 2) ∧
    (server_bind_loop 3 ([⟨false, true, true⟩, ⟨true, true, false⟩]
        ++ ⟨true, false, true⟩ :: [⟨true, true, true⟩])).1 = .aborted ∧
    (client_connect_loop 3 ([⟨false, true, true⟩, ⟨true, true, false⟩]
        ++ ⟨true, true, true⟩ :: [⟨true, true, true⟩])).1 = .bound (3 + 2) ∧
    (server_reconnect_loop 3 (⟨true, true, false⟩ :: [⟨true, true, true⟩])).1
        = .aborted :=
  ⟨connector_first_success_wins.1 [⟨false, true, true⟩, ⟨true, true, false⟩]
      ⟨true, true, true⟩ [⟨true, true, true⟩] 3 (by decide) rfl rfl rfl,
   connector_first_success_wins.2.1 [⟨false, true, true⟩, ⟨true, true, false⟩]
      ⟨true, false, true⟩ [⟨true, true, true⟩] 3 (by decide) rfl rfl,
   connector_first_success_wins.2.2.1 [⟨false, true, true⟩, ⟨true, true, false⟩]
      ⟨true, true, true⟩ [⟨true, true, true⟩] 3 (by decide) rfl rfl,
   connector_first_success_wins.2.2.2 ⟨true, true, false⟩ [⟨true, true, true⟩] 3
      rfl rfl rfl⟩
